import Mathlib

/-!
Verification development for the djumblelog tumblelog application.

The development shallowly embeds the journal data model (`djumblelog/models.py`),
the custom manager (`djumblelog/managers.py`), the feed addressing logic
(`djumblelog/feeds.py`) and the template tag (`djumblelog/templatetags/djumblelog.py`).

Modelling conventions:
  * the database table of journal entries is a `List Entry` (`Journal`);
  * timestamps and primary keys are `Nat`;
  * the content-type registry is a function returning `Option Nat`
    (`none` models `ContentType.DoesNotExist`);
  * the template engine is a function from template name and context to
    `Except TemplateError String`, where `TemplateError.templateDoesNotExist`
    models Django `TemplateDoesNotExist` and `TemplateError.otherError`
    models any other template-rendering exception;
  * cross-module references inside the package (the name `Entry` used in
    `managers.py`, defined in `models.py`) are resolved to their referents;
    Python import mechanics are not modelled.
-/

namespace Djumblelog

/-- One row of the journal table, mirroring the `Entry` model of `models.py`:
`created_at` (a `DateTimeField` with `editable=False`), the generic reference
`(content_type, object_id)`, and the database primary key `id`
(`none` before the row has been persisted, as in Django). -/
structure Entry where
  id : Option Nat
  created_at : Nat
  content_type : Nat
  object_id : Nat
deriving DecidableEq, Repr

/-- The journal table: the list of persisted `Entry` rows. -/
abbrev Journal := List Entry

/-- A source-model instance as seen by the manager: `ctype` is the result of
`ContentType.objects.get_for_model(instance)` (`none` models
`ContentType.DoesNotExist`), `pk` is `inst.pk`. -/
structure Inst where
  ctype : Option Nat
  pk : Nat
deriving DecidableEq, Repr

/-- The `order_by` argument of `EntryManager.get_for_model`.  The application
only ever orders the journal by `created_at`: the default is the string
`-created_at` (descending), and `created_at` (ascending) is the other
meaningful value on this model. -/
inductive OrderBy where
  | createdAtDesc
  | createdAtAsc
deriving DecidableEq, Repr

/-- Ordering relation on journal rows selected by an `order_by` argument. -/
def entryRel : OrderBy → Entry → Entry → Prop
  | OrderBy.createdAtDesc => fun a b => b.created_at ≤ a.created_at
  | OrderBy.createdAtAsc => fun a b => a.created_at ≤ b.created_at

instance entryRelDecidable (ob : OrderBy) : DecidableRel (entryRel ob) := by
  cases ob
  · exact fun a b => Nat.decLe _ _
  · exact fun a b => Nat.decLe _ _

instance entryRelTotal (ob : OrderBy) : IsTotal Entry (entryRel ob) := by
  cases ob
  · exact ⟨fun a b => Nat.le_total _ _⟩
  · exact ⟨fun a b => Nat.le_total _ _⟩

instance entryRelTrans (ob : OrderBy) : IsTrans Entry (entryRel ob) := by
  cases ob
  · exact ⟨fun a b c hab hbc => Nat.le_trans hbc hab⟩
  · exact ⟨fun a b c hab hbc => Nat.le_trans hab hbc⟩

/-- Application of a queryset `.order_by(...)` clause to a list of rows. -/
def order_qs (ob : OrderBy) (l : List Entry) : List Entry :=
  List.insertionSort (entryRel ob) l

/-- The row filter used by `get_for_object`:
`filter(content_type=content_type, object_id=inst.pk)`. -/
def entry_matches (content_type : Nat) (pk : Nat) (e : Entry) : Bool :=
  e.content_type == content_type && e.object_id == pk

/-- Embedding of the stamping step of `Entry.save` (`models.py`):
`if not self.id: self.created_at = datetime.now()`.  A row that has no
primary key yet gets `created_at` set to the current time; a persisted row
is left as it is (any value already in `created_at`, client-supplied or not,
is overwritten on first save and untouched afterwards). -/
def Entry.save_stamp (e : Entry) (now : Nat) : Entry :=
  if e.id = none then { e with created_at := now } else e

/-- Embedding of `Entry.save` (`models.py`): stamp `created_at` when the row
is new, then `super(Entry, self).save(...)`: an unsaved row is inserted into
the table with a fresh primary key `fid`, an already-persisted row overwrites
its own table row. -/
def Entry.save (J : Journal) (e : Entry) (now fid : Nat) : Journal × Entry :=
  let e2 := Entry.save_stamp e now
  match e2.id with
  | none =>
      let p := { e2 with id := some fid }
      (J ++ [p], p)
  | some i => (J.map (fun x => if x.id = some i then e2 else x), e2)

namespace EntryManager

/-- Embedding of `EntryManager.get_for_model` (`managers.py`): resolve
`(app_label, model)` in the content-type registry `reg`; on
`ContentType.DoesNotExist` return `None`, otherwise the rows filtered by
content type and ordered by `order_by`. -/
def get_for_model (J : Journal) (reg : String → String → Option Nat)
    (app_label model : String) (order_by : OrderBy) : Option (List Entry) :=
  match reg app_label model with
  | some content_type =>
      some (order_qs order_by (J.filter (fun e => e.content_type == content_type)))
  | none => none

/-- Embedding of `EntryManager.get_for_object` (`managers.py`): resolve the
content type of the instance; on `ContentType.DoesNotExist` return `None`,
otherwise the rows whose `(content_type, object_id)` match the instance. -/
def get_for_object (J : Journal) (inst : Inst) : Option (List Entry) :=
  match inst.ctype with
  | some content_type => some (J.filter (entry_matches content_type inst.pk))
  | none => none

/-- Embedding of `EntryManager.delete_for_object` (`managers.py`).  The source
computes `entries = self.get_for_object(instance)` and tests `if entries:`,
which is falsy both when `get_for_object` returned `None` (unresolvable
content type) and when the queryset is empty; in those cases it returns
`False` and deletes nothing.  Otherwise `entries.delete()` removes from the
table exactly the rows the queryset selects and `True` is returned.  The
match on `inst.ctype` inlines `get_for_object` so that the row filter of the queryset is available for the delete. -/
def delete_for_object (J : Journal) (inst : Inst) : Bool × Journal :=
  match inst.ctype with
  | none => (false, J)
  | some content_type =>
      let entries := J.filter (entry_matches content_type inst.pk)
      if entries.isEmpty then (false, J)
      else (true, J.filter (fun e => !(entry_matches content_type inst.pk e)))

/-- Embedding of `EntryManager.log` (`managers.py`): resolve the content type of the
instance, then `Entry.objects.create(object_id=instance.pk,
content_type=ctype)` builds an unsaved row and saves it.  The `created`
parameter mirrors the source signature `log(self, instance, created=False)`;
the source body never reads it, so the same new entry is persisted whether
the triggering save was a creation or an update.  `none` models the
content-type resolution failing (the exception propagating to the caller). -/
def log (J : Journal) (inst : Inst) (created : Bool) (now fid : Nat) :
    Option (Journal × Entry) :=
  match inst.ctype with
  | none => none
  | some ctype =>
      some (Entry.save J
        { id := none, created_at := 0, content_type := ctype, object_id := inst.pk }
        now fid)

end EntryManager

/-- Embedding of the `create_entry` signal handler (`models.py`), connected to
`post_save` for every model named in `DJUMBLELOG_MODELS`.  Django fires
`post_save` on every save of such an instance, passing `created=True` exactly
when the save inserted a new row; the handler forwards the flag to
`EntryManager.log` unchanged. -/
def create_entry (J : Journal) (inst : Inst) (created : Bool) (now fid : Nat) :
    Option Journal :=
  (EntryManager.log J inst created now fid).map Prod.fst

/-- Embedding of `Entry.objects.all()`: every row of the table in default model order, `Meta.ordering = ["-created_at"]` (`models.py`). -/
def entry_objects_all (J : Journal) : List Entry :=
  order_qs OrderBy.createdAtDesc J

/-- Embedding of the `show_djumblelog` inclusion tag
(`templatetags/djumblelog.py`): the object list of the snippet is
`entry_model.objects.all()[:num]`, where `num` defaults to `10` in the
source signature. -/
def show_djumblelog (J : Journal) (num : Nat) : List Entry :=
  (entry_objects_all J).take num

/-- Failure modes of template rendering: `templateDoesNotExist` models
Django raising `TemplateDoesNotExist`, `otherError` models every other
exception raised while rendering a template. -/
inductive TemplateError where
  | templateDoesNotExist
  | otherError (msg : String)
deriving DecidableEq, Repr

/-- Context dictionary passed to `render_to_string`: the content object
(by its string conversion) and, for the combined render, the already
resolved title and description. -/
structure RCtx where
  obj : String
  title : Option String
  description : Option String
deriving DecidableEq, Repr

/-- The referenced content object as the Render Resolver sees it:
`get_title`, `get_description` and `render` are `some v` when
`hasattr(self.content_object, ...)` holds and the override returns `v`,
`none` when the attribute is absent; `str` is the string conversion of the
object, which is also what the inline template rendering the bare object
variable produces. -/
structure ContentObject where
  get_title : Option String
  get_description : Option String
  render : Option String
  str : String
deriving DecidableEq, Repr

/-- Collaborating template engine: resolves a template name and context to
rendered text or a failure. -/
abbrev TemplateEngine := String → RCtx → Except TemplateError String

/-- Template name tried by `_get_title`:
the source builds it from `self.content_type.app_label` and
`self.content_type.name`, suffix `_title.html`. -/
def title_tmpl (app_label name : String) : String :=
  app_label ++ "/" ++ name ++ "_title.html"

/-- Template name tried by `_get_description`, suffix `_description.html`. -/
def description_tmpl (app_label name : String) : String :=
  app_label ++ "/" ++ name ++ "_description.html"

/-- Template name tried by `render`, suffix `_render.html`. -/
def render_tmpl (app_label name : String) : String :=
  app_label ++ "/" ++ name ++ "_render.html"

/-- Context used by `_get_title` and `_get_description`: only the object. -/
def obj_ctx (obj : ContentObject) : RCtx :=
  { obj := obj.str, title := none, description := none }

/-- Context used by `render`: object, resolved title, resolved description. -/
def full_ctx (obj : ContentObject) (t d : String) : RCtx :=
  { obj := obj.str, title := some t, description := some d }

/-- Embedding of `Entry._get_title` (`models.py`): first the `get_title`
override of the content object; otherwise render the type template, where
only `TemplateDoesNotExist` is caught and answered with the string
conversion of the object (the inline template rendering the object
variable); every other rendering error propagates. -/
def Entry.get_title (engine : TemplateEngine) (app_label name : String)
    (obj : ContentObject) : Except TemplateError String :=
  match obj.get_title with
  | some v => Except.ok v
  | none =>
    match engine (title_tmpl app_label name) (obj_ctx obj) with
    | Except.ok s => Except.ok s
    | Except.error TemplateError.templateDoesNotExist => Except.ok obj.str
    | Except.error e => Except.error e

/-- Embedding of `Entry._get_description` (`models.py`), identical to
`_get_title` with the description override and template name. -/
def Entry.get_description (engine : TemplateEngine) (app_label name : String)
    (obj : ContentObject) : Except TemplateError String :=
  match obj.get_description with
  | some v => Except.ok v
  | none =>
    match engine (description_tmpl app_label name) (obj_ctx obj) with
    | Except.ok s => Except.ok s
    | Except.error TemplateError.templateDoesNotExist => Except.ok obj.str
    | Except.error e => Except.error e

/-- Embedding of `Entry.render` (`models.py`): first the `render` override of
the content object; otherwise the context is built (which resolves `self.title`
and `self.description`, propagating any error they raise), the type template
is rendered, and only `TemplateDoesNotExist` falls through to the bundled
default template `djumblelog/render.html` with the same context. -/
def Entry.render (engine : TemplateEngine) (app_label name : String)
    (obj : ContentObject) : Except TemplateError String :=
  match obj.render with
  | some v => Except.ok v
  | none =>
    match Entry.get_title engine app_label name obj with
    | Except.error e => Except.error e
    | Except.ok t =>
      match Entry.get_description engine app_label name obj with
      | Except.error e => Except.error e
      | Except.ok d =>
        match engine (render_tmpl app_label name) (full_ctx obj t d) with
        | Except.error TemplateError.templateDoesNotExist =>
            engine "djumblelog/render.html" (full_ctx obj t d)
        | r => r

/-- Result of `LatestEntriesByType.get_object` (`feeds.py`): which exception
escaped, or the queryset built for the resolved content type. -/
inductive GetObjectResult where
  | objectDoesNotExist
  | feedDoesNotExist
  | ok (entries : List Entry)
deriving DecidableEq, Repr

/-- Embedding of `LatestEntriesByType.get_object` (`feeds.py`): with the URL
split into path segments `bits`, anything other than exactly one segment
raises `ObjectDoesNotExist` (the name appears in `feeds.py` without an
import; it denotes the framework exception of that name, which the
syndication machinery matches); a single segment that
`ContentType.objects.get(name=bits[0])` cannot resolve raises
`FeedDoesNotExist`; otherwise the entries of the resolved content type are
returned. -/
def LatestEntriesByType.get_object (J : Journal) (regName : String → Option Nat)
    (bits : List String) : GetObjectResult :=
  match bits with
  | [b] =>
    match regName b with
    | none => GetObjectResult.feedDoesNotExist
    | some ctype => GetObjectResult.ok (J.filter (fun e => e.content_type == ctype))
  | _ => GetObjectResult.objectDoesNotExist

/-- Outcome of a by-type feed request as seen by the client. -/
inductive FeedOutcome where
  | notFound
  | feed (entries : List Entry)
deriving DecidableEq, Repr

/-- Host-framework adapter, modelled from the spec (section 7: a feed
addressing error is surfaced to the caller as "feed not found"): the
syndication framework converts `ObjectDoesNotExist` escaping `get_object`
into `FeedDoesNotExist`, and the feed view answers `FeedDoesNotExist` with
a "feed not found" client error; a successful `get_object` yields the feed
built over the returned entries. -/
def feed_outcome (J : Journal) (regName : String → Option Nat)
    (bits : List String) : FeedOutcome :=
  match LatestEntriesByType.get_object J regName bits with
  | GetObjectResult.objectDoesNotExist => FeedOutcome.notFound
  | GetObjectResult.feedDoesNotExist => FeedOutcome.notFound
  | GetObjectResult.ok entries => FeedOutcome.feed entries

/-- Concrete engine fixture: no template registered at all. -/
def engNone : TemplateEngine := fun _ _ =>
  Except.error TemplateError.templateDoesNotExist

/-- Concrete engine fixture: type templates for app "b", type name "p" all
registered. -/
def engAll : TemplateEngine := fun nm _ =>
  if nm = "b/p_title.html" then Except.ok "TT"
  else if nm = "b/p_description.html" then Except.ok "DD"
  else if nm = "b/p_render.html" then Except.ok "RR"
  else Except.error TemplateError.templateDoesNotExist

/-- Concrete engine fixture: every template rendering fails with an error
other than `TemplateDoesNotExist`. -/
def engBoom : TemplateEngine := fun _ _ =>
  Except.error (TemplateError.otherError "boom")

/-- Concrete engine fixture: title and description templates render, the
render template raises an error other than `TemplateDoesNotExist`. -/
def engBoomRender : TemplateEngine := fun nm _ =>
  if nm = "b/p_title.html" then Except.ok "TT"
  else if nm = "b/p_description.html" then Except.ok "DD"
  else Except.error (TemplateError.otherError "boom")

/-- Concrete content object fixture: all three overrides present. -/
def objOverrides : ContentObject :=
  { get_title := some "t0", get_description := some "d0",
    render := some "r0", str := "S" }

/-- Concrete content object fixture: no overrides. -/
def objPlain : ContentObject :=
  { get_title := none, get_description := none, render := none, str := "S" }

end Djumblelog

namespace Djumblelog

/-- C4: `delete_entries_for_source` removes exactly the entries whose
`(content_type, object_id)` match the given instance, leaves every
non-matching entry unchanged (in place and in order), and returns `true`
iff at least one entry was removed. -/
theorem C4_delete_for_source_exact (J : Journal) (ct pk : Nat) :
    (EntryManager.delete_for_object J ⟨some ct, pk⟩).2
        = J.filter (fun e => !(entry_matches ct pk e)) ∧
    ((EntryManager.delete_for_object J ⟨some ct, pk⟩).1 = true ↔
        ∃ e ∈ J, entry_matches ct pk e = true) := by
  unfold EntryManager.delete_for_object
  by_cases h : (J.filter (entry_matches ct pk)).isEmpty
  · have hnil : J.filter (entry_matches ct pk) = [] := List.isEmpty_iff.mp h
    have hall : ∀ e ∈ J, ¬ entry_matches ct pk e = true :=
      List.filter_eq_nil_iff.mp hnil
    have hself : J.filter (fun e => !(entry_matches ct pk e)) = J := by
      refine List.filter_eq_self.mpr ?_
      intro e he
      simpa using hall e he
    simp only [h]
    constructor
    · simpa using hself.symm
    · simp only [if_true]
      constructor
      · intro hfalse
        simp at hfalse
      · rintro ⟨e, he, hm⟩
        exact absurd hm (hall e he)
  · simp only [h]
    constructor
    · simp
    · have hne : J.filter (entry_matches ct pk) ≠ [] := by
        intro hnil
        exact h (List.isEmpty_iff.mpr hnil)
      constructor
      · intro _
        rcases List.exists_mem_of_ne_nil _ hne with ⟨e, he⟩
        have hm := List.mem_filter.mp he
        exact ⟨e, hm.1, hm.2⟩
      · intro _
        simp [h]

/-- C8: `delete_entries_for_source` is idempotent: a second call for the same
instance on the journal produced by the first call removes nothing, leaves the
journal unchanged, and returns `false`. -/
theorem C8_delete_for_source_idempotent (J : Journal) (inst : Inst) :
    EntryManager.delete_for_object (EntryManager.delete_for_object J inst).2 inst
      = (false, (EntryManager.delete_for_object J inst).2) := by
  unfold EntryManager.delete_for_object
  match hct : inst.ctype with
  | none => simp
  | some ct =>
    by_cases h : (J.filter (entry_matches ct inst.pk)).isEmpty
    · simp [h]
    · simp only [h, if_false]
      have hempty :
          ((J.filter (fun e => !(entry_matches ct inst.pk e))).filter
            (entry_matches ct inst.pk)).isEmpty = true := by
        refine List.isEmpty_iff.mpr ?_
        refine List.filter_eq_nil_iff.mpr ?_
        intro e he
        have := (List.mem_filter.mp he).2
        simp at this
        simp [this]
      simp [hempty]

/-- C10: when the type of the instance cannot be resolved in the content-type
registry (`get_for_object` returns `None`), `delete_entries_for_source`
returns `false` and leaves the journal completely unchanged. -/
theorem C10_delete_unresolvable_type_noop (J : Journal) (pk : Nat) :
    EntryManager.delete_for_object J ⟨none, pk⟩ = (false, J) := rfl

/-- C3: `log(record)` persists exactly one new entry whose `created_at` is the
current time of that first save; the first save of any fresh row stamps
`created_at` with the current time regardless of any client-supplied value;
and saving an already-persisted row never changes any of its fields, in
particular not `created_at`. -/
theorem C3_created_at_set_once (J : Journal) (ct pk now fid : Nat)
    (e0 : Entry) (h0 : e0.id = none) (e : Entry) (i : Nat) (h : e.id = some i) :
    (∃ p, EntryManager.log J ⟨some ct, pk⟩ false now fid = some (J ++ [p], p) ∧
        p.created_at = now ∧ p.content_type = ct ∧ p.object_id = pk) ∧
    (Entry.save_stamp e0 now).created_at = now ∧
    Entry.save_stamp e now = e := by
  refine ⟨⟨⟨some fid, now, ct, pk⟩, rfl, rfl, rfl, rfl⟩, ?_, ?_⟩
  · simp [Entry.save_stamp, h0]
  · simp [Entry.save_stamp, h]

/-- Witness for C3 at concrete inputs. -/
theorem C3_created_at_set_once_witness :
    (∃ p, EntryManager.log [] ⟨some 2, 9⟩ false 5 1 = some ([] ++ [p], p) ∧
        p.created_at = 5 ∧ p.content_type = 2 ∧ p.object_id = 9) ∧
    (Entry.save_stamp ⟨none, 0, 2, 9⟩ 5).created_at = 5 ∧
    Entry.save_stamp ⟨some 1, 5, 2, 9⟩ 5 = ⟨some 1, 5, 2, 9⟩ :=
  C3_created_at_set_once [] 2 9 5 1 ⟨none, 0, 2, 9⟩ rfl ⟨some 1, 5, 2, 9⟩ 1 rfl

/-- C1 (evaluation at the failing input): the `create_entry` handler is fired
by `post_save` on every save of a tracked instance, and `log` ignores its
`created` flag, so a save of an already-persisted instance also inserts a new
entry.  Starting from the journal holding the single entry made when instance
`(content type 1, pk 5)` was created, an update-save of that same instance
(`created = false`) yields a journal with a second entry for it —
contradicting "a save of an already-persisted instance yields no new Entry". -/
theorem C1_update_save_creates_second_entry :
    create_entry [⟨some 1, 50, 1, 5⟩] ⟨some 1, 5⟩ false 60 2
      = some [⟨some 1, 50, 1, 5⟩, ⟨some 2, 60, 1, 5⟩] := rfl

/-- C5: `entries_for_type` returns all entries whose source type matches
(a permutation of the rows filtered by the resolved content type), ordered as
the `order_by` argument requests, and returns `None` instead of raising when
the `(app_label, model)` pair does not resolve in the content-type registry. -/
theorem C5_entries_for_type (J : Journal) (reg : String → String → Option Nat)
    (a m : String) (ob : OrderBy) :
    (reg a m = none → EntryManager.get_for_model J reg a m ob = none) ∧
    (∀ ct, reg a m = some ct →
      ∃ l, EntryManager.get_for_model J reg a m ob = some l ∧
        l.Perm (J.filter (fun e => e.content_type == ct)) ∧
        l.Sorted (entryRel ob)) := by
  constructor
  · intro h
    simp [EntryManager.get_for_model, h]
  · intro ct h
    refine ⟨order_qs ob (J.filter (fun e => e.content_type == ct)), ?_, ?_, ?_⟩
    · simp [EntryManager.get_for_model, h]
    · exact List.perm_insertionSort _ _
    · exact List.sorted_insertionSort _ _

/-- Witness for C5 at concrete inputs: an empty registry makes the lookup
absent, and a registry resolving to content type 7 returns the sorted match. -/
theorem C5_entries_for_type_witness :
    (EntryManager.get_for_model ([] : Journal) (fun _ _ => none) "blog" "post"
        OrderBy.createdAtDesc = none) ∧
    ∃ l, EntryManager.get_for_model [⟨some 1, 3, 7, 4⟩] (fun _ _ => some 7)
        "blog" "post" OrderBy.createdAtDesc = some l ∧
      l.Perm ([⟨some 1, 3, 7, 4⟩].filter (fun e => e.content_type == 7)) ∧
      l.Sorted (entryRel OrderBy.createdAtDesc) := by
  constructor
  · exact (C5_entries_for_type [] (fun _ _ => none) "blog" "post"
      OrderBy.createdAtDesc).1 rfl
  · exact (C5_entries_for_type [⟨some 1, 3, 7, 4⟩] (fun _ _ => some 7) "blog" "post"
      OrderBy.createdAtDesc).2 7 rfl

/-- C9: the embeddable snippet returns exactly `min num total` entries, sorted
by `created_at` descending, and they are the most recent ones: the journal
splits into the returned prefix and a rest, and `created_at` of every returned
entry is at least that of every entry in the rest. -/
theorem C9_snippet_most_recent (J : Journal) (num : Nat) :
    (show_djumblelog J num).length = min num J.length ∧
    (show_djumblelog J num).Sorted (entryRel OrderBy.createdAtDesc) ∧
    ∃ rest, ((show_djumblelog J num) ++ rest).Perm J ∧
      ∀ a ∈ show_djumblelog J num, ∀ b ∈ rest, b.created_at ≤ a.created_at := by
  have hperm : (entry_objects_all J).Perm J := List.perm_insertionSort _ _
  have hsorted : (entry_objects_all J).Sorted (entryRel OrderBy.createdAtDesc) :=
    List.sorted_insertionSort _ _
  have hsplit : show_djumblelog J num ++ (entry_objects_all J).drop num
      = entry_objects_all J := List.take_append_drop num _
  refine ⟨?_, ?_, (entry_objects_all J).drop num, ?_, ?_⟩
  · rw [show_djumblelog, List.length_take, hperm.length_eq]
  · exact List.Pairwise.sublist (List.take_sublist _ _) hsorted
  · rw [hsplit]
    exact hperm
  · have := List.pairwise_append.mp (hsplit ▸ hsorted)
    exact this.2.2

/-- C2: for each of title, description and combined render, the Render
Resolver applies the three strategies in fixed priority order: a present
instance override is returned verbatim for every engine (hence even when a
matching template exists); with no override, a type template that renders is
used; with neither, the string conversion of the object (title, description)
or the bundled default template `djumblelog/render.html` (combined render)
is used. -/
theorem C2_render_resolver_priority (engine : TemplateEngine)
    (a n : String) (obj : ContentObject) :
    (∀ v, obj.get_title = some v →
      Entry.get_title engine a n obj = Except.ok v) ∧
    (∀ s, obj.get_title = none →
      engine (title_tmpl a n) (obj_ctx obj) = Except.ok s →
      Entry.get_title engine a n obj = Except.ok s) ∧
    (obj.get_title = none →
      engine (title_tmpl a n) (obj_ctx obj)
        = Except.error TemplateError.templateDoesNotExist →
      Entry.get_title engine a n obj = Except.ok obj.str) ∧
    (∀ v, obj.get_description = some v →
      Entry.get_description engine a n obj = Except.ok v) ∧
    (∀ s, obj.get_description = none →
      engine (description_tmpl a n) (obj_ctx obj) = Except.ok s →
      Entry.get_description engine a n obj = Except.ok s) ∧
    (obj.get_description = none →
      engine (description_tmpl a n) (obj_ctx obj)
        = Except.error TemplateError.templateDoesNotExist →
      Entry.get_description engine a n obj = Except.ok obj.str) ∧
    (∀ v, obj.render = some v →
      Entry.render engine a n obj = Except.ok v) ∧
    (∀ t d s, obj.render = none →
      Entry.get_title engine a n obj = Except.ok t →
      Entry.get_description engine a n obj = Except.ok d →
      engine (render_tmpl a n) (full_ctx obj t d) = Except.ok s →
      Entry.render engine a n obj = Except.ok s) ∧
    (∀ t d, obj.render = none →
      Entry.get_title engine a n obj = Except.ok t →
      Entry.get_description engine a n obj = Except.ok d →
      engine (render_tmpl a n) (full_ctx obj t d)
        = Except.error TemplateError.templateDoesNotExist →
      Entry.render engine a n obj
        = engine "djumblelog/render.html" (full_ctx obj t d)) := by
  refine ⟨?_, ?_, ?_, ?_, ?_, ?_, ?_, ?_, ?_⟩
  · intro v hv
    simp [Entry.get_title, hv]
  · intro s h0 hs
    simp [Entry.get_title, h0, hs]
  · intro h0 hs
    simp [Entry.get_title, h0, hs]
  · intro v hv
    simp [Entry.get_description, hv]
  · intro s h0 hs
    simp [Entry.get_description, h0, hs]
  · intro h0 hs
    simp [Entry.get_description, h0, hs]
  · intro v hv
    simp [Entry.render, hv]
  · intro t d s h0 ht hd hs
    simp [Entry.render, h0, ht, hd, hs]
  · intro t d h0 ht hd hs
    simp [Entry.render, h0, ht, hd, hs]

/-- Witness for C2 at concrete engines and objects, one per strategy and
field: overrides win, registered type templates are used without overrides,
and the defaults are used when neither exists. -/
theorem C2_render_resolver_priority_witness :
    Entry.get_title engNone "b" "p" objOverrides = Except.ok "t0" ∧
    Entry.get_title engAll "b" "p" objPlain = Except.ok "TT" ∧
    Entry.get_title engNone "b" "p" objPlain = Except.ok "S" ∧
    Entry.get_description engNone "b" "p" objOverrides = Except.ok "d0" ∧
    Entry.get_description engAll "b" "p" objPlain = Except.ok "DD" ∧
    Entry.get_description engNone "b" "p" objPlain = Except.ok "S" ∧
    Entry.render engNone "b" "p" objOverrides = Except.ok "r0" ∧
    Entry.render engAll "b" "p" objPlain = Except.ok "RR" ∧
    Entry.render engNone "b" "p" objPlain
      = engNone "djumblelog/render.html" (full_ctx objPlain "S" "S") := by
  refine ⟨?_, ?_, ?_, ?_, ?_, ?_, ?_, ?_, ?_⟩
  · exact (C2_render_resolver_priority engNone "b" "p" objOverrides).1 "t0" rfl
  · exact (C2_render_resolver_priority engAll "b" "p" objPlain).2.1 "TT" rfl rfl
  · exact (C2_render_resolver_priority engNone "b" "p" objPlain).2.2.1 rfl rfl
  · exact (C2_render_resolver_priority engNone "b" "p" objOverrides).2.2.2.1 "d0" rfl
  · exact (C2_render_resolver_priority engAll "b" "p" objPlain).2.2.2.2.1 "DD" rfl rfl
  · exact (C2_render_resolver_priority engNone "b" "p" objPlain).2.2.2.2.2.1 rfl rfl
  · exact (C2_render_resolver_priority engNone "b" "p"
      objOverrides).2.2.2.2.2.2.1 "r0" rfl
  · exact (C2_render_resolver_priority engAll "b" "p"
      objPlain).2.2.2.2.2.2.2.1 "TT" "DD" "RR" rfl rfl rfl rfl
  · exact (C2_render_resolver_priority engNone "b" "p"
      objPlain).2.2.2.2.2.2.2.2 "S" "S" rfl rfl rfl rfl

/-- C7: during title, description and combined-render resolution, exactly the
`TemplateDoesNotExist` failure of the type-template step is recovered locally
by falling through to the next strategy, while every other error raised while
rendering the type template propagates to the caller. -/
theorem C7_template_error_propagation (engine : TemplateEngine)
    (a n : String) (obj : ContentObject) (m : String) :
    (obj.get_title = none →
      engine (title_tmpl a n) (obj_ctx obj)
        = Except.error (TemplateError.otherError m) →
      Entry.get_title engine a n obj
        = Except.error (TemplateError.otherError m)) ∧
    (obj.get_description = none →
      engine (description_tmpl a n) (obj_ctx obj)
        = Except.error (TemplateError.otherError m) →
      Entry.get_description engine a n obj
        = Except.error (TemplateError.otherError m)) ∧
    (∀ t d, obj.render = none →
      Entry.get_title engine a n obj = Except.ok t →
      Entry.get_description engine a n obj = Except.ok d →
      engine (render_tmpl a n) (full_ctx obj t d)
        = Except.error (TemplateError.otherError m) →
      Entry.render engine a n obj
        = Except.error (TemplateError.otherError m)) ∧
    (obj.get_title = none →
      engine (title_tmpl a n) (obj_ctx obj)
        = Except.error TemplateError.templateDoesNotExist →
      Entry.get_title engine a n obj = Except.ok obj.str) ∧
    (obj.get_description = none →
      engine (description_tmpl a n) (obj_ctx obj)
        = Except.error TemplateError.templateDoesNotExist →
      Entry.get_description engine a n obj = Except.ok obj.str) ∧
    (∀ t d, obj.render = none →
      Entry.get_title engine a n obj = Except.ok t →
      Entry.get_description engine a n obj = Except.ok d →
      engine (render_tmpl a n) (full_ctx obj t d)
        = Except.error TemplateError.templateDoesNotExist →
      Entry.render engine a n obj
        = engine "djumblelog/render.html" (full_ctx obj t d)) := by
  refine ⟨?_, ?_, ?_, ?_, ?_, ?_⟩
  · intro h0 hs
    simp [Entry.get_title, h0, hs]
  · intro h0 hs
    simp [Entry.get_description, h0, hs]
  · intro t d h0 ht hd hs
    simp [Entry.render, h0, ht, hd, hs]
  · intro h0 hs
    simp [Entry.get_title, h0, hs]
  · intro h0 hs
    simp [Entry.get_description, h0, hs]
  · intro t d h0 ht hd hs
    simp [Entry.render, h0, ht, hd, hs]

/-- Witness for C7 at concrete engines: a non-`TemplateDoesNotExist` error
propagates out of all three resolvers, and `TemplateDoesNotExist` is
recovered into the next strategy. -/
theorem C7_template_error_propagation_witness :
    Entry.get_title engBoom "b" "p" objPlain
      = Except.error (TemplateError.otherError "boom") ∧
    Entry.get_description engBoom "b" "p" objPlain
      = Except.error (TemplateError.otherError "boom") ∧
    Entry.render engBoomRender "b" "p" objPlain
      = Except.error (TemplateError.otherError "boom") ∧
    Entry.get_title engNone "b" "p" objPlain = Except.ok "S" ∧
    Entry.get_description engNone "b" "p" objPlain = Except.ok "S" ∧
    Entry.render engNone "b" "p" objPlain
      = engNone "djumblelog/render.html" (full_ctx objPlain "S" "S") := by
  refine ⟨?_, ?_, ?_, ?_, ?_, ?_⟩
  · exact (C7_template_error_propagation engBoom "b" "p" objPlain "boom").1 rfl rfl
  · exact (C7_template_error_propagation engBoom "b" "p" objPlain "boom").2.1 rfl rfl
  · exact (C7_template_error_propagation engBoomRender "b" "p" objPlain
      "boom").2.2.1 "TT" "DD" rfl rfl rfl rfl
  · exact (C7_template_error_propagation engNone "b" "p" objPlain
      "boom").2.2.2.1 rfl rfl
  · exact (C7_template_error_propagation engNone "b" "p" objPlain
      "boom").2.2.2.2.1 rfl rfl
  · exact (C7_template_error_propagation engNone "b" "p" objPlain
      "boom").2.2.2.2.2 "S" "S" rfl rfl rfl rfl

/-- C6: a by-type feed request whose type path segment is missing (not
exactly one segment) or does not resolve in the content-type registry ends
in the "feed not found" client error, never in a feed over a partial or
empty entry list. -/
theorem C6_feed_bad_type_segment (J : Journal) (regName : String → Option Nat)
    (bits : List String) :
    (bits.length ≠ 1 → feed_outcome J regName bits = FeedOutcome.notFound) ∧
    (∀ b, bits = [b] → regName b = none →
      feed_outcome J regName bits = FeedOutcome.notFound) := by
  constructor
  · intro h
    match bits with
    | [] => rfl
    | [b] => exact absurd rfl h
    | b1 :: b2 :: rest => rfl
  · rintro b rfl h
    simp [feed_outcome, LatestEntriesByType.get_object, h]

/-- Witness for C6: a request with no type segment and a request with an
unresolvable segment both end in "feed not found". -/
theorem C6_feed_bad_type_segment_witness :
    feed_outcome [] (fun _ => some 1) [] = FeedOutcome.notFound ∧
    feed_outcome [] (fun _ => none) ["weird"] = FeedOutcome.notFound := by
  constructor
  · exact (C6_feed_bad_type_segment [] (fun _ => some 1) []).1 (by decide)
  · exact (C6_feed_bad_type_segment [] (fun _ => none) ["weird"]).2 "weird" rfl rfl

end Djumblelog
